import Mathlib

/-!
Verification of the personal finance tracker (planilha_financeira.py and the
two Streamlit front ends).  Monetary values are embedded as rationals, dates
as explicit year/month/day records, pandas DataFrames as Lean lists of
records, and Python exceptions as an `Except` error type.
-/

/-- A calendar date (year, month 1..12, day 1..31), embedding the
`pd.Timestamp` values used by the ledgers. -/
structure Date where
  year : Nat
  month : Nat
  day : Nat
deriving Repr, DecidableEq

/-- Gregorian leap-year test. -/
def isLeap (y : Nat) : Bool :=
  (y % 4 == 0 && y % 100 != 0) || y % 400 == 0

/-- Number of days in a given month of a given year. -/
def daysInMonth (y m : Nat) : Nat :=
  if m = 2 then (if isLeap y then 29 else 28)
  else if m = 4 ∨ m = 6 ∨ m = 9 ∨ m = 11 then 30
  else 31

/-- `d + pd.DateOffset(months=n)`: advance `n` calendar months, rolling the
year over and clamping the day to the length of the target month. -/
def addMonths (d : Date) (n : Nat) : Date :=
  let t := d.month - 1 + n
  let y := d.year + t / 12
  let m := t % 12 + 1
  ⟨y, m, min d.day (daysInMonth y m)⟩

/-- A date is well formed when its month is in 1..12 and its day fits the
month (every `pd.Timestamp` satisfies this). -/
def Date.Valid (d : Date) : Prop :=
  1 ≤ d.month ∧ d.month ≤ 12 ∧ 1 ≤ d.day ∧ d.day ≤ daysInMonth d.year d.month

instance (d : Date) : Decidable d.Valid := by
  unfold Date.Valid; infer_instance

/-- One row of the `cartao` ledger (`self.cartao`). -/
structure CardRow where
  data_compra : Date
  descricao : String
  valor : ℚ
  parcelas : Int
  parcela_atual : Nat
  vencimento_fatura : Date
  pago : Bool
deriving Repr, DecidableEq

/-- One row of the `gastos` ledger. -/
structure ExpenseRow where
  data : Date
  categoria : String
  descricao : String
  valor : ℚ
  forma_pagamento : String
deriving Repr, DecidableEq

/-- One row of the `receitas` ledger. -/
structure IncomeRow where
  data : Date
  fonte : String
  valor : ℚ
  tipo : String
deriving Repr, DecidableEq

/-- One row of the `investimentos` ledger. -/
structure InvestRow where
  data : Date
  tipo : String
  objetivo : String
  valor : ℚ
  rentabilidade_mensal : ℚ
deriving Repr, DecidableEq

/-- One row of the `orcamento` ledger. -/
structure BudgetRow where
  categoria : String
  limite_mensal : ℚ
deriving Repr, DecidableEq

/-- The in-memory state of a `ControleFinanceiro` instance: its five ledgers. -/
structure FinState where
  gastos : List ExpenseRow
  investimentos : List InvestRow
  orcamento : List BudgetRow
  cartao : List CardRow
  receitas : List IncomeRow
deriving Repr, DecidableEq

/-- Python exceptions observable in the embedded code paths. -/
inductive PyError where
  | zeroDivision
  | attributeError
deriving Repr, DecidableEq

instance {ε α : Type} [DecidableEq ε] [DecidableEq α] : DecidableEq (Except ε α) :=
  fun a b =>
    match a, b with
    | .error e, .error f =>
      if h : e = f then .isTrue (by rw [h]) else .isFalse (fun hh => h (Except.error.inj hh))
    | .error _, .ok _ => .isFalse (fun hh => Except.noConfusion hh)
    | .ok _, .error _ => .isFalse (fun hh => Except.noConfusion hh)
    | .ok x, .ok y =>
      if h : x = y then .isTrue (by rw [h]) else .isFalse (fun hh => h (Except.ok.inj hh))

/-- Default due-date derivation of `adicionar_compra_cartao` when
`vencimento_fatura is None` (planilha_financeira.py lines 201-209): day 10 of
the purchase month when the purchase day is at most 10, otherwise day 10 of
the following month, December rolling into January of the next year. -/
def default_vencimento (data_compra : Date) : Date :=
  if data_compra.day ≤ 10 then
    { data_compra with day := 10 }
  else if data_compra.month = 12 then
    { year := data_compra.year + 1, month := 1, day := 10 }
  else
    { data_compra with month := data_compra.month + 1, day := 10 }

/-- The due date actually used by `adicionar_compra_cartao`: the explicit one
when given, the derived default otherwise. -/
def effectiveVencimento (data_compra : Date) (vencimento_fatura : Option Date) : Date :=
  match vencimento_fatura with
  | none => default_vencimento data_compra
  | some v => v

/-- The rows built by the loop of `adicionar_compra_cartao`
(planilha_financeira.py lines 216-226): one row per installment, each worth
`valor / parcelas`, the i-th due `i` months after the base due date, unpaid.
Python's `range(parcelas)` is empty for non-positive `parcelas`. -/
def parcelaRows (data_compra : Date) (descricao : String) (valor : ℚ)
    (parcelas : Int) (vencimento : Date) : List CardRow :=
  (List.range parcelas.toNat).map fun i =>
    { data_compra := data_compra
      descricao :=
        if 1 < parcelas then
          descricao ++ " (" ++ toString (i + 1) ++ "/" ++ toString parcelas ++ ")"
        else descricao
      valor := valor / (parcelas : ℚ)
      parcelas := parcelas
      parcela_atual := i + 1
      vencimento_fatura := addMonths vencimento i
      pago := false }

/-- `adicionar_compra_cartao` (planilha_financeira.py lines 188-226) acting on
the card ledger.  `valor / parcelas` is computed before the loop, so
`parcelas = 0` raises `ZeroDivisionError` with no row appended; otherwise the
installment rows are appended to `cartao`. -/
def adicionar_compra_cartao (cartao : List CardRow) (data_compra : Date)
    (descricao : String) (valor : ℚ) (parcelas : Int)
    (vencimento_fatura : Option Date) : Except PyError (List CardRow) :=
  let vencimento := effectiveVencimento data_compra vencimento_fatura
  if parcelas = 0 then
    .error .zeroDivision
  else
    .ok (cartao ++ parcelaRows data_compra descricao valor parcelas vencimento)

/-- `marcar_fatura_paga` on the card ledger (planilha_financeira.py lines
248-254): set `pago` on every row whose due date falls in the given
month/year. -/
def marcar_fatura_paga_cartao (cartao : List CardRow) (mes ano : Nat) : List CardRow :=
  cartao.map fun r =>
    if r.vencimento_fatura.month = mes ∧ r.vencimento_fatura.year = ano then
      { r with pago := true }
    else r

/-- `marcar_fatura_paga` as a state transformer: only `self.cartao` is
touched. -/
def FinState.marcar_fatura_paga (s : FinState) (mes ano : Nat) : FinState :=
  { s with cartao := marcar_fatura_paga_cartao s.cartao mes ano }

/-- `atualizar_orcamento` (planilha_financeira.py lines 257-264): when the
category is already present, `.loc` assignment replaces the limit of every
matching row; otherwise one new row is appended. -/
def atualizar_orcamento (orcamento : List BudgetRow) (categoria : String)
    (limite_mensal : ℚ) : List BudgetRow :=
  if orcamento.any (fun r => r.categoria = categoria) then
    orcamento.map fun r =>
      if r.categoria = categoria then { r with limite_mensal := limite_mensal } else r
  else
    orcamento ++ [{ categoria := categoria, limite_mensal := limite_mensal }]

/-- Modelled from the spec: the count of completed calendar months between an
entry date and a reference date, floored to whole months and clamped at 0 for
entries dated the reference month or in the future.  The method computing it
(`calcular_rendimentos`) is called by both Streamlit front ends but is defined
nowhere in the repository. -/
def elapsedMonths (entry ref : Date) : Nat :=
  (let m : Int := ((ref.year : Int) - entry.year) * 12 + ((ref.month : Int) - entry.month)
   if ref.day < entry.day then m - 1 else m).toNat

/-- One valuation record per investment entry, as consumed by the front ends
(`valor_atual`, `rendimento_acumulado`, `meses_decorridos` columns). -/
structure RendRow where
  data : Date
  tipo : String
  objetivo : String
  valor : ℚ
  rentabilidade_mensal : ℚ
  meses_decorridos : Nat
  valor_atual : ℚ
  rendimento_acumulado : ℚ
deriving Repr, DecidableEq

/-- Modelled from the spec: `calcular_rendimentos`, the investment valuation
engine, is called on the `ControleFinanceiro` instance by both Streamlit
front ends but is missing from the repository; per the spec, each entry is
valued at `principal * (1 + monthly_rate/100) ^ elapsed_months` and the
accumulated yield is current value minus principal. -/
def calcular_rendimentos (investimentos : List InvestRow) (ref : Date) : List RendRow :=
  investimentos.map fun e =>
    let m := elapsedMonths e.data ref
    let va := e.valor * (1 + e.rentabilidade_mensal / 100) ^ m
    { data := e.data
      tipo := e.tipo
      objetivo := e.objetivo
      valor := e.valor
      rentabilidade_mensal := e.rentabilidade_mensal
      meses_decorridos := m
      valor_atual := va
      rendimento_acumulado := va - e.valor }

/-- Total invested principal: `cf.investimentos['valor'].sum()`. -/
def totalPrincipal (investimentos : List InvestRow) : ℚ :=
  (investimentos.map fun e => e.valor).sum

/-- Principal invested in one reference month: the public front end's
`df_inv_mes[df_inv_mes['mes'] == mes_ref]['valor'].sum()`. -/
def monthPrincipal (investimentos : List InvestRow) (anoRef mesRef : Nat) : ℚ :=
  ((investimentos.filter fun e => e.data.year = anoRef ∧ e.data.month = mesRef).map
    fun e => e.valor).sum

/-- Total accumulated yield: `rendimentos['rendimento_acumulado'].sum()`. -/
def totalYield (investimentos : List InvestRow) (ref : Date) : ℚ :=
  ((calcular_rendimentos investimentos ref).map fun r => r.rendimento_acumulado).sum

/-- The yield percentage shown by the main dashboard
(gui_financeira_streamlit.py lines 44 and 80): `rendimento_total /
total_investido * 100` guarded by `total_investido > 0`, else 0, where
`total_investido` sums every entry's principal. -/
def dashboardYieldPercent (investimentos : List InvestRow) (ref : Date) : ℚ :=
  let total_investido := totalPrincipal investimentos
  let rendimento_total := totalYield investimentos ref
  if 0 < total_investido then rendimento_total / total_investido * 100 else 0

/-- The yield percentage shown by the public dashboard
(gui_financeira_streamlit_public.py lines 219-226 and 257): the same guarded
quotient, but `total_investido` only sums the principal of entries dated in
the selected reference month. -/
def publicDashboardYieldPercent (investimentos : List InvestRow)
    (anoRef mesRef : Nat) (ref : Date) : ℚ :=
  let total_investido := monthPrincipal investimentos anoRef mesRef
  let rendimento_total := totalYield investimentos ref
  if 0 < total_investido then rendimento_total / total_investido * 100 else 0

/-- The methods defined by `class ControleFinanceiro`
(planilha_financeira.py lines 29-724). -/
def controleFinanceiroMethods : List String :=
  ["__init__", "carregar_dados", "_criar_orcamento_padrao", "salvar_dados",
   "adicionar_receita", "adicionar_gasto", "adicionar_investimento",
   "adicionar_compra_cartao", "marcar_fatura_paga", "atualizar_orcamento",
   "visualizar_orcamento", "resumo_mensal", "resumo_anual", "projecao_anual",
   "status_cartao_credito", "gerar_dashboard", "exportar_para_excel",
   "importar_de_excel", "dashboard_anual"]

/-- The dashboard investment-metrics path of both front ends
(gui_financeira_streamlit.py lines 74-80, public file lines 251-257): when
the investment ledger is non-empty, `cf.calcular_rendimentos()` is invoked;
Python attribute lookup on the `ControleFinanceiro` instance raises
`AttributeError` when the class defines no such method, otherwise the summed
current value and accumulated yield are rendered. -/
def dashboardInvestMetrics (investimentos : List InvestRow) (ref : Date) :
    Except PyError (Option (ℚ × ℚ)) :=
  if investimentos.isEmpty then .ok none
  else if "calcular_rendimentos" ∈ controleFinanceiroMethods then
    let rend := calcular_rendimentos investimentos ref
    .ok (some ((rend.map fun r => r.valor_atual).sum,
               (rend.map fun r => r.rendimento_acumulado).sum))
  else .error .attributeError

/-! ## Helper lemmas -/

/-- Adding zero months to a well-formed date is the identity (the day clamp
does not fire). -/
theorem addMonths_zero (d : Date) (h1 : 1 ≤ d.month) (h2 : d.month ≤ 12)
    (h3 : d.day ≤ daysInMonth d.year d.month) : addMonths d 0 = d := by
  cases d with
  | mk y m dd =>
    dsimp only at h1 h2 h3
    have e1 : (m - 1 + 0) / 12 = 0 := by omega
    have e2 : (m - 1 + 0) % 12 + 1 = m := by omega
    simp only [addMonths]
    rw [e1, e2]
    simp only [Nat.add_zero, Date.mk.injEq]
    exact ⟨trivial, trivial, min_eq_left h3⟩

/-- The i-th row built by the installment loop, explicitly. -/
theorem parcelaRows_getElem? (d : Date) (desc : String) (valor : ℚ)
    (parcelas : Int) (v : Date) (i : Nat) (hi : i < parcelas.toNat) :
    (parcelaRows d desc valor parcelas v)[i]? = some
      { data_compra := d
        descricao :=
          if 1 < parcelas then
            desc ++ " (" ++ toString (i + 1) ++ "/" ++ toString parcelas ++ ")"
          else desc
        valor := valor / (parcelas : ℚ)
        parcelas := parcelas
        parcela_atual := i + 1
        vencimento_fatura := addMonths v i
        pago := false } := by
  simp only [parcelaRows, List.getElem?_map, List.getElem?_range hi, Option.map_some']

/-! ## C1 -/

/-- C1: for every positive total and every installment count N ≥ 1,
`adicionar_compra_cartao` appends exactly N rows to the card ledger, each row
worth `valor / parcelas`, and the appended values sum to the total (exactly,
in rational arithmetic, hence within floating-point tolerance). -/
theorem C1_installment_expansion (cartao : List CardRow) (d : Date)
    (desc : String) (valor : ℚ) (parcelas : Int) (venc : Option Date)
    (hv : 0 < valor) (hp : 1 ≤ parcelas) :
    ∃ rows, adicionar_compra_cartao cartao d desc valor parcelas venc =
        .ok (cartao ++ rows) ∧
      rows.length = parcelas.toNat ∧
      (∀ r ∈ rows, r.valor = valor / (parcelas : ℚ)) ∧
      (rows.map fun r => r.valor).sum = valor := by
  have hne : parcelas ≠ 0 := by omega
  refine ⟨parcelaRows d desc valor parcelas (effectiveVencimento d venc), ?_, ?_, ?_, ?_⟩
  · simp [adicionar_compra_cartao, hne]
  · simp [parcelaRows]
  · intro r hr
    simp only [parcelaRows, List.mem_map, List.mem_range] at hr
    obtain ⟨i, _, rfl⟩ := hr
    rfl
  · have hmap : ((parcelaRows d desc valor parcelas
        (effectiveVencimento d venc)).map fun r => r.valor) =
        List.replicate parcelas.toNat (valor / (parcelas : ℚ)) := by
      refine List.eq_replicate_iff.2 ⟨by simp [parcelaRows], ?_⟩
      intro a ha
      simp only [List.mem_map] at ha
      obtain ⟨r, hr, rfl⟩ := ha
      simp only [parcelaRows, List.mem_map, List.mem_range] at hr
      obtain ⟨i, _, rfl⟩ := hr
      rfl
    rw [hmap, List.sum_replicate, nsmul_eq_mul]
    have hcast : ((parcelas.toNat : ℚ)) = (parcelas : ℚ) := by
      have := Int.toNat_of_nonneg (by omega : (0 : ℤ) ≤ parcelas)
      exact_mod_cast congrArg (fun z : ℤ => (z : ℚ)) this
    rw [hcast]
    have hq : (parcelas : ℚ) ≠ 0 := by
      exact_mod_cast hne
    field_simp

/-- Witness for C1 at a concrete purchase: 300 in 3 installments. -/
theorem C1_installment_expansion_witness :
    (0 : ℚ) < 300 ∧ (1 : Int) ≤ 3 ∧
    ∃ rows, adicionar_compra_cartao [] ⟨2026, 1, 15⟩ "Compra" 300 3 none =
        .ok ([] ++ rows) ∧
      rows.length = (3 : Int).toNat ∧
      (∀ r ∈ rows, r.valor = 300 / ((3 : Int) : ℚ)) ∧
      (rows.map fun r => r.valor).sum = 300 :=
  ⟨by norm_num, by norm_num,
   C1_installment_expansion [] ⟨2026, 1, 15⟩ "Compra" 300 3 none
     (by norm_num) (by norm_num)⟩

/-! ## C3 -/

/-- Counterexample to C3: a purchase with negative total amount (-50) and one
installment does not fail at all — it succeeds and appends one (negative)
row. -/
theorem C3_counterexample :
    adicionar_compra_cartao [] ⟨2026, 1, 5⟩ "Compra" (-50) 1 none =
      .ok [{ data_compra := ⟨2026, 1, 5⟩, descricao := "Compra", valor := -50,
             parcelas := 1, parcela_atual := 1,
             vencimento_fatura := ⟨2026, 1, 10⟩, pago := false }] := by
  simp only [adicionar_compra_cartao, effectiveVencimento, default_vencimento,
    parcelaRows]
  norm_num [addMonths, daysInMonth, isLeap]
  decide

/-- C3 amended: `adicionar_compra_cartao` performs no input validation.  With
`parcelas = 0` it raises ZeroDivisionError (not an InvalidInput error) and
appends nothing; with `parcelas < 0` it succeeds and appends nothing; with
`parcelas ≥ 1` it succeeds for any `valor`, negative amounts included,
appending `parcelas` rows. -/
theorem C3_no_validation (cartao : List CardRow) (d : Date) (desc : String)
    (valor : ℚ) (parcelas : Int) (venc : Option Date) :
    (parcelas = 0 →
      adicionar_compra_cartao cartao d desc valor parcelas venc =
        .error .zeroDivision) ∧
    (parcelas < 0 →
      adicionar_compra_cartao cartao d desc valor parcelas venc = .ok cartao) ∧
    (1 ≤ parcelas →
      ∃ rows, adicionar_compra_cartao cartao d desc valor parcelas venc =
          .ok (cartao ++ rows) ∧ rows.length = parcelas.toNat) := by
  refine ⟨?_, ?_, ?_⟩
  · intro h0
    simp [adicionar_compra_cartao, h0]
  · intro hneg
    have hne : parcelas ≠ 0 := by omega
    have htn : parcelas.toNat = 0 := by omega
    simp [adicionar_compra_cartao, hne, parcelaRows, htn]
  · intro hp
    have hne : parcelas ≠ 0 := by omega
    refine ⟨parcelaRows d desc valor parcelas (effectiveVencimento d venc), ?_, ?_⟩
    · simp [adicionar_compra_cartao, hne]
    · simp [parcelaRows]

/-- Witness for C3's amended statement at concrete inputs: counts 0, -2 and 3. -/
theorem C3_no_validation_witness :
    ((0 : Int) = 0 ∧
      adicionar_compra_cartao [] ⟨2026, 1, 5⟩ "A" 100 0 none =
        .error .zeroDivision) ∧
    ((-2 : Int) < 0 ∧
      adicionar_compra_cartao [] ⟨2026, 1, 5⟩ "A" 100 (-2) none = .ok []) ∧
    ((1 : Int) ≤ 3 ∧
      ∃ rows, adicionar_compra_cartao [] ⟨2026, 1, 5⟩ "A" 100 3 none =
          .ok ([] ++ rows) ∧ rows.length = (3 : Int).toNat) :=
  ⟨⟨rfl, (C3_no_validation [] ⟨2026, 1, 5⟩ "A" 100 0 none).1 rfl⟩,
   ⟨by norm_num, (C3_no_validation [] ⟨2026, 1, 5⟩ "A" 100 (-2) none).2.1 (by norm_num)⟩,
   ⟨by norm_num, (C3_no_validation [] ⟨2026, 1, 5⟩ "A" 100 3 none).2.2 (by norm_num)⟩⟩

/-- Every month has at least 28 days. -/
theorem daysInMonth_ge_28 (y m : Nat) : 28 ≤ daysInMonth y m := by
  unfold daysInMonth
  split_ifs <;> omega

/-- The derived default due date is itself a well-formed date. -/
theorem default_vencimento_valid (d : Date) (hv : d.Valid) :
    (default_vencimento d).Valid := by
  obtain ⟨h1, h2, h3, h4⟩ := hv
  unfold default_vencimento Date.Valid
  split_ifs with ha hb
  · exact ⟨h1, h2, (by norm_num : (1 : Nat) ≤ 10),
      le_trans (by norm_num : (10 : Nat) ≤ 28) (daysInMonth_ge_28 d.year d.month)⟩
  · exact ⟨(by norm_num : (1 : Nat) ≤ 1), (by norm_num : (1 : Nat) ≤ 12),
      (by norm_num : (1 : Nat) ≤ 10),
      le_trans (by norm_num : (10 : Nat) ≤ 28) (daysInMonth_ge_28 (d.year + 1) 1)⟩
  · exact ⟨(by omega : 1 ≤ d.month + 1), (by omega : d.month + 1 ≤ 12),
      (by norm_num : (1 : Nat) ≤ 10),
      le_trans (by norm_num : (10 : Nat) ≤ 28) (daysInMonth_ge_28 d.year (d.month + 1))⟩

/-! ## C4 -/

/-- C4: with no explicit due date, the first due date is day 10 of the
purchase month when the purchase day is at most 10, and day 10 of the next
month otherwise, December rolling the year into January; the single-installment
call uses exactly this derived date. -/
theorem C4_default_due_date (d : Date) (hv : d.Valid) :
    (d.day ≤ 10 → default_vencimento d = ⟨d.year, d.month, 10⟩) ∧
    (10 < d.day → d.month = 12 → default_vencimento d = ⟨d.year + 1, 1, 10⟩) ∧
    (10 < d.day → d.month < 12 → default_vencimento d = ⟨d.year, d.month + 1, 10⟩) ∧
    (∀ cartao desc valor,
      adicionar_compra_cartao cartao d desc valor 1 none =
        .ok (cartao ++
          [{ data_compra := d, descricao := desc, valor := valor / ((1 : Int) : ℚ),
             parcelas := 1, parcela_atual := 1,
             vencimento_fatura := default_vencimento d, pago := false }])) := by
  refine ⟨?_, ?_, ?_, ?_⟩
  · intro h
    simp [default_vencimento, h]
  · intro h h12
    have hn : ¬ d.day ≤ 10 := by omega
    simp [default_vencimento, hn, h12]
  · intro h hlt
    have hn : ¬ d.day ≤ 10 := by omega
    have hn12 : d.month ≠ 12 := by omega
    simp [default_vencimento, hn, hn12]
  · intro cartao desc valor
    have hne : (1 : Int) ≠ 0 := by norm_num
    obtain ⟨w1, w2, w3, w4⟩ := default_vencimento_valid d hv
    simp only [adicionar_compra_cartao, effectiveVencimento]
    rw [if_neg hne]
    congr 1
    congr 1
    simp only [parcelaRows]
    rw [show (1 : Int).toNat = 1 from rfl, show List.range 1 = [0] from rfl]
    simp only [List.map_cons, List.map_nil, List.cons.injEq, and_true]
    have : ¬ (1 : Int) < 1 := by norm_num
    simp only [this, if_false]
    rw [addMonths_zero _ w1 w2 w4]

/-- Witness for C4 at three concrete purchase dates: day ≤ 10, a December
purchase after day 10, and a mid-year purchase after day 10. -/
theorem C4_default_due_date_witness :
    ((⟨2026, 1, 5⟩ : Date).Valid ∧
      default_vencimento ⟨2026, 1, 5⟩ = ⟨2026, 1, 10⟩) ∧
    ((⟨2026, 12, 15⟩ : Date).Valid ∧
      default_vencimento ⟨2026, 12, 15⟩ = ⟨2027, 1, 10⟩) ∧
    ((⟨2026, 4, 15⟩ : Date).Valid ∧
      default_vencimento ⟨2026, 4, 15⟩ = ⟨2026, 5, 10⟩) :=
  ⟨⟨by decide, (C4_default_due_date ⟨2026, 1, 5⟩ (by decide)).1 (by decide)⟩,
   ⟨by decide, (C4_default_due_date ⟨2026, 12, 15⟩ (by decide)).2.1 (by decide) rfl⟩,
   ⟨by decide, (C4_default_due_date ⟨2026, 4, 15⟩ (by decide)).2.2.1 (by decide) (by decide)⟩⟩

/-! ## C5 -/

/-- C5: the rows appended for one purchase carry installment indices 1..N and
the row at (0-based) position i is due exactly i calendar months after the
first row's due date, via calendar-correct month arithmetic. -/
theorem C5_installment_due_dates (cartao : List CardRow) (d : Date)
    (desc : String) (valor : ℚ) (parcelas : Int) (venc : Option Date)
    (hp : 1 ≤ parcelas) (hv : (effectiveVencimento d venc).Valid) :
    ∃ rows, adicionar_compra_cartao cartao d desc valor parcelas venc =
        .ok (cartao ++ rows) ∧
      rows.length = parcelas.toNat ∧
      ∀ i r0 ri, rows[0]? = some r0 → rows[i]? = some ri →
        ri.parcela_atual = i + 1 ∧
        ri.vencimento_fatura = addMonths r0.vencimento_fatura i := by
  have hne : parcelas ≠ 0 := by omega
  obtain ⟨w1, w2, w3, w4⟩ := hv
  refine ⟨parcelaRows d desc valor parcelas (effectiveVencimento d venc), ?_, ?_, ?_⟩
  · simp [adicionar_compra_cartao, hne]
  · simp [parcelaRows]
  · intro i r0 ri h0 hi
    have hn : 0 < parcelas.toNat := by omega
    rw [parcelaRows_getElem? d desc valor parcelas _ 0 hn] at h0
    have hilt : i < parcelas.toNat := by
      by_contra hge
      rw [List.getElem?_eq_none (by simpa [parcelaRows] using Nat.le_of_not_lt hge)] at hi
      cases hi
    rw [parcelaRows_getElem? d desc valor parcelas _ i hilt] at hi
    obtain rfl := Option.some.inj h0
    obtain rfl := Option.some.inj hi
    refine ⟨rfl, ?_⟩
    simp only
    rw [addMonths_zero _ w1 w2 w4]

/-- Witness for C5: 3 installments with explicit first due date 2026-12-10;
the spec's example rollover Dec 10 + 2 months = Feb 10 of the next year is
also checked on `addMonths` itself. -/
theorem C5_installment_due_dates_witness :
    (1 : Int) ≤ 3 ∧
    (effectiveVencimento ⟨2026, 11, 20⟩ (some ⟨2026, 12, 10⟩)).Valid ∧
    addMonths ⟨2026, 12, 10⟩ 2 = ⟨2027, 2, 10⟩ ∧
    (∃ rows, adicionar_compra_cartao [] ⟨2026, 11, 20⟩ "Compra" 300 3
        (some ⟨2026, 12, 10⟩) = .ok ([] ++ rows) ∧
      rows.length = (3 : Int).toNat ∧
      ∀ i r0 ri, rows[0]? = some r0 → rows[i]? = some ri →
        ri.parcela_atual = i + 1 ∧
        ri.vencimento_fatura = addMonths r0.vencimento_fatura i) :=
  ⟨by norm_num, by decide, by decide,
   C5_installment_due_dates [] ⟨2026, 11, 20⟩ "Compra" 300 3 (some ⟨2026, 12, 10⟩)
     (by norm_num) (by decide)⟩

/-! ## C6 -/

/-- C6: every row appended to the card ledger by `adicionar_compra_cartao`
has `pago = false` at creation. -/
theorem C6_rows_created_unpaid (cartao : List CardRow) (d : Date)
    (desc : String) (valor : ℚ) (parcelas : Int) (venc : Option Date)
    (out : List CardRow)
    (h : adicionar_compra_cartao cartao d desc valor parcelas venc = .ok out) :
    ∀ r ∈ out.drop cartao.length, r.pago = false := by
  simp only [adicionar_compra_cartao] at h
  by_cases h0 : parcelas = 0
  · simp [h0] at h
  · rw [if_neg h0] at h
    obtain rfl := Except.ok.inj h
    rw [List.drop_left]
    intro r hr
    simp only [parcelaRows, List.mem_map, List.mem_range] at hr
    obtain ⟨i, _, rfl⟩ := hr
    rfl

/-- The concrete output ledger used in C6's witness. -/
def c6out : List CardRow :=
  [{ data_compra := ⟨2026, 1, 5⟩, descricao := "Compra", valor := 100,
     parcelas := 1, parcela_atual := 1, vencimento_fatura := ⟨2026, 1, 10⟩,
     pago := false }]

/-- Witness for C6 at a concrete single-installment purchase: the one
produced row is unpaid. -/
theorem C6_rows_created_unpaid_witness :
    ({ data_compra := ⟨2026, 1, 5⟩, descricao := "Compra", valor := 100,
       parcelas := 1, parcela_atual := 1, vencimento_fatura := ⟨2026, 1, 10⟩,
       pago := false } : CardRow).pago = false :=
  C6_rows_created_unpaid [] ⟨2026, 1, 5⟩ "Compra" 100 1 none c6out
    (by
      simp only [adicionar_compra_cartao, effectiveVencimento, default_vencimento,
        parcelaRows, c6out]
      norm_num [addMonths, daysInMonth, isLeap]
      decide)
    _ (by decide)

/-! ## C2 -/

/-- C2: each valuation record reports current value
`principal * (1 + rate/100) ^ elapsed_months` and accumulated yield equal to
current value minus principal; with zero elapsed months the current value is
the principal and the yield is 0.  (The valuation engine is modelled from the
spec, its implementation being absent from the repository.) -/
theorem C2_investment_valuation (inv : List InvestRow) (ref : Date) (i : Nat)
    (e : InvestRow) (he : inv[i]? = some e) (hp : 0 < e.valor) :
    ∃ r, (calcular_rendimentos inv ref)[i]? = some r ∧
      r.valor = e.valor ∧
      r.meses_decorridos = elapsedMonths e.data ref ∧
      r.valor_atual =
        e.valor * (1 + e.rentabilidade_mensal / 100) ^ elapsedMonths e.data ref ∧
      r.rendimento_acumulado = r.valor_atual - e.valor ∧
      (elapsedMonths e.data ref = 0 →
        r.valor_atual = e.valor ∧ r.rendimento_acumulado = 0) := by
  refine ⟨{ data := e.data, tipo := e.tipo, objetivo := e.objetivo, valor := e.valor,
            rentabilidade_mensal := e.rentabilidade_mensal,
            meses_decorridos := elapsedMonths e.data ref
            valor_atual :=
              e.valor * (1 + e.rentabilidade_mensal / 100) ^ elapsedMonths e.data ref
            rendimento_acumulado :=
              e.valor * (1 + e.rentabilidade_mensal / 100) ^ elapsedMonths e.data ref
                - e.valor }, ?_, rfl, rfl, rfl, rfl, ?_⟩
  · simp only [calcular_rendimentos, List.getElem?_map, he, Option.map_some']
  · intro h0
    dsimp only
    rw [h0, pow_zero, mul_one]
    exact ⟨rfl, sub_self _⟩

/-- Witness for C2: one entry dated the reference month (elapsed months 0). -/
theorem C2_investment_valuation_witness :
    ([({ data := ⟨2026, 3, 5⟩, tipo := "CDB", objetivo := "Geral", valor := 1000,
         rentabilidade_mensal := 1 } : InvestRow)][0]? =
      some { data := ⟨2026, 3, 5⟩, tipo := "CDB", objetivo := "Geral", valor := 1000,
             rentabilidade_mensal := 1 }) ∧
    (0 : ℚ) < 1000 ∧
    ∃ r, (calcular_rendimentos
        [{ data := ⟨2026, 3, 5⟩, tipo := "CDB", objetivo := "Geral", valor := 1000,
           rentabilidade_mensal := 1 }] ⟨2026, 3, 20⟩)[0]? = some r ∧
      r.valor = 1000 ∧
      r.meses_decorridos = elapsedMonths ⟨2026, 3, 5⟩ ⟨2026, 3, 20⟩ ∧
      r.valor_atual = 1000 * (1 + 1 / 100) ^ elapsedMonths ⟨2026, 3, 5⟩ ⟨2026, 3, 20⟩ ∧
      r.rendimento_acumulado = r.valor_atual - 1000 ∧
      (elapsedMonths ⟨2026, 3, 5⟩ ⟨2026, 3, 20⟩ = 0 →
        r.valor_atual = 1000 ∧ r.rendimento_acumulado = 0) :=
  ⟨rfl, by norm_num,
   C2_investment_valuation
     [{ data := ⟨2026, 3, 5⟩, tipo := "CDB", objetivo := "Geral", valor := 1000,
        rentabilidade_mensal := 1 }] ⟨2026, 3, 20⟩ 0 _ rfl (by norm_num)⟩

/-! ## C7 -/

/-- The two-entry investment ledger used to separate the two dashboards'
percentage formulas. -/
def cexInvest : List InvestRow :=
  [{ data := ⟨2026, 1, 5⟩, tipo := "CDB", objetivo := "Geral", valor := 100,
     rentabilidade_mensal := 10 },
   { data := ⟨2026, 2, 5⟩, tipo := "CDB", objetivo := "Geral", valor := 300,
     rentabilidade_mensal := 0 }]

/-- Counterexample to C7: in the public dashboard the denominator is the
reference month's invested principal, not the total principal, so with total
principal 400 > 0 and only 100 invested in the chosen reference month the
reported percentage differs from `total_yield / total_principal * 100`. -/
theorem C7_counterexample :
    0 < totalPrincipal cexInvest ∧
    publicDashboardYieldPercent cexInvest 2026 1 ⟨2026, 3, 5⟩ ≠
      totalYield cexInvest ⟨2026, 3, 5⟩ / totalPrincipal cexInvest * 100 := by
  constructor
  · norm_num [totalPrincipal, cexInvest]
  · have h2 : Int.toNat 2 = 2 := rfl
    norm_num [publicDashboardYieldPercent, monthPrincipal, totalYield,
      totalPrincipal, cexInvest, calcular_rendimentos, elapsedMonths, h2]

/-- C7 amended: the main dashboard's reported percentage is
`total_yield / total_principal * 100` when the total principal is positive
and 0 when it is 0; the public dashboard uses the reference month's invested
principal as denominator instead (the yield still summed over all entries),
likewise reporting 0 instead of dividing when that denominator is 0. -/
theorem C7_yield_percent (inv : List InvestRow) (ref : Date)
    (anoRef mesRef : Nat) :
    (0 < totalPrincipal inv →
      dashboardYieldPercent inv ref =
        totalYield inv ref / totalPrincipal inv * 100) ∧
    (totalPrincipal inv = 0 → dashboardYieldPercent inv ref = 0) ∧
    (0 < monthPrincipal inv anoRef mesRef →
      publicDashboardYieldPercent inv anoRef mesRef ref =
        totalYield inv ref / monthPrincipal inv anoRef mesRef * 100) ∧
    (monthPrincipal inv anoRef mesRef = 0 →
      publicDashboardYieldPercent inv anoRef mesRef ref = 0) := by
  refine ⟨?_, ?_, ?_, ?_⟩
  · intro h
    simp [dashboardYieldPercent, h]
  · intro h
    simp [dashboardYieldPercent, h]
  · intro h
    simp [publicDashboardYieldPercent, h]
  · intro h
    simp [publicDashboardYieldPercent, h]

/-- Witness for C7's amended statement: the two-entry ledger exercises the
positive-denominator branches and the empty ledger the zero branches. -/
theorem C7_yield_percent_witness :
    (0 < totalPrincipal cexInvest ∧
      dashboardYieldPercent cexInvest ⟨2026, 3, 5⟩ =
        totalYield cexInvest ⟨2026, 3, 5⟩ / totalPrincipal cexInvest * 100) ∧
    (totalPrincipal [] = 0 ∧ dashboardYieldPercent [] ⟨2026, 3, 5⟩ = 0) ∧
    (0 < monthPrincipal cexInvest 2026 1 ∧
      publicDashboardYieldPercent cexInvest 2026 1 ⟨2026, 3, 5⟩ =
        totalYield cexInvest ⟨2026, 3, 5⟩ / monthPrincipal cexInvest 2026 1 * 100) ∧
    (monthPrincipal [] 2026 1 = 0 ∧
      publicDashboardYieldPercent [] 2026 1 ⟨2026, 3, 5⟩ = 0) :=
  ⟨⟨by norm_num [totalPrincipal, cexInvest],
    (C7_yield_percent cexInvest ⟨2026, 3, 5⟩ 2026 1).1
      (by norm_num [totalPrincipal, cexInvest])⟩,
   ⟨by norm_num [totalPrincipal],
    (C7_yield_percent [] ⟨2026, 3, 5⟩ 2026 1).2.1 (by norm_num [totalPrincipal])⟩,
   ⟨by norm_num [monthPrincipal, cexInvest],
    (C7_yield_percent cexInvest ⟨2026, 3, 5⟩ 2026 1).2.2.1
      (by norm_num [monthPrincipal, cexInvest])⟩,
   ⟨by norm_num [monthPrincipal],
    (C7_yield_percent [] ⟨2026, 3, 5⟩ 2026 1).2.2.2 (by norm_num [monthPrincipal])⟩⟩

/-! ## C9 -/

/-- C9: `ControleFinanceiro` defines no method named `calcular_rendimentos`,
so whenever the investment ledger is non-empty the dashboard metrics path of
both front ends raises AttributeError instead of producing a valuation. -/
theorem C9_attribute_error (inv : List InvestRow) (ref : Date) (h : inv ≠ []) :
    ("calcular_rendimentos" ∈ controleFinanceiroMethods → False) ∧
    dashboardInvestMetrics inv ref = .error .attributeError := by
  refine ⟨by decide, ?_⟩
  unfold dashboardInvestMetrics
  rw [if_neg, if_neg]
  · decide
  · simpa [List.isEmpty_iff] using h

/-- Witness for C9: a one-entry investment ledger. -/
theorem C9_attribute_error_witness :
    ("calcular_rendimentos" ∈ controleFinanceiroMethods → False) ∧
    dashboardInvestMetrics
      [{ data := ⟨2026, 1, 5⟩, tipo := "CDB", objetivo := "Geral", valor := 1000,
         rentabilidade_mensal := 1 }] ⟨2026, 3, 5⟩ = .error .attributeError :=
  C9_attribute_error
    [{ data := ⟨2026, 1, 5⟩, tipo := "CDB", objetivo := "Geral", valor := 1000,
       rentabilidade_mensal := 1 }] ⟨2026, 3, 5⟩ (by simp)

/-! ## C10 -/

/-- C10: `marcar_fatura_paga` sets `pago := true` on exactly the card rows
due in the given month and year, leaves every other field and every
non-matching card row unchanged, and does not touch the other four ledgers. -/
theorem C10_marcar_fatura_frame (s : FinState) (mes ano : Nat) :
    (s.marcar_fatura_paga mes ano).gastos = s.gastos ∧
    (s.marcar_fatura_paga mes ano).receitas = s.receitas ∧
    (s.marcar_fatura_paga mes ano).investimentos = s.investimentos ∧
    (s.marcar_fatura_paga mes ano).orcamento = s.orcamento ∧
    (s.marcar_fatura_paga mes ano).cartao.length = s.cartao.length ∧
    ∀ (i : Nat) (r : CardRow), s.cartao[i]? = some r →
      ((r.vencimento_fatura.month = mes ∧ r.vencimento_fatura.year = ano) →
        (s.marcar_fatura_paga mes ano).cartao[i]? = some { r with pago := true }) ∧
      (¬(r.vencimento_fatura.month = mes ∧ r.vencimento_fatura.year = ano) →
        (s.marcar_fatura_paga mes ano).cartao[i]? = some r) := by
  refine ⟨rfl, rfl, rfl, rfl, ?_, ?_⟩
  · simp [FinState.marcar_fatura_paga, marcar_fatura_paga_cartao]
  · intro i r hr
    constructor
    · intro hm
      simp only [FinState.marcar_fatura_paga, marcar_fatura_paga_cartao,
        List.getElem?_map, hr, Option.map_some']
      rw [if_pos hm]
    · intro hm
      simp only [FinState.marcar_fatura_paga, marcar_fatura_paga_cartao,
        List.getElem?_map, hr, Option.map_some']
      rw [if_neg hm]

/-- The concrete state used in C10's witness: two card rows, one due in
January 2026 and one in February 2026, plus non-empty other ledgers. -/
def c10state : FinState :=
  { gastos := [{ data := ⟨2026, 1, 10⟩, categoria := "Alimentação",
                 descricao := "Supermercado", valor := 450,
                 forma_pagamento := "Débito" }]
    investimentos := [{ data := ⟨2026, 1, 5⟩, tipo := "CDB", objetivo := "Geral",
                        valor := 1000, rentabilidade_mensal := 1 }]
    orcamento := [{ categoria := "Cartão de Crédito", limite_mensal := 1500 }]
    cartao := [{ data_compra := ⟨2026, 1, 5⟩, descricao := "Compra",
                 valor := 100, parcelas := 2, parcela_atual := 1,
                 vencimento_fatura := ⟨2026, 1, 10⟩, pago := false },
               { data_compra := ⟨2026, 1, 5⟩, descricao := "Compra",
                 valor := 100, parcelas := 2, parcela_atual := 2,
                 vencimento_fatura := ⟨2026, 2, 10⟩, pago := false }]
    receitas := [{ data := ⟨2026, 1, 5⟩, fonte := "Salário", valor := 5000,
                   tipo := "Salário" }] }

/-- Witness for C10: marking the January 2026 invoice paid on the concrete
state flips the first row's flag, keeps the February row, and leaves the
other ledgers alone. -/
theorem C10_marcar_fatura_frame_witness :
    (c10state.marcar_fatura_paga 1 2026).gastos = c10state.gastos ∧
    (c10state.marcar_fatura_paga 1 2026).cartao[0]? =
      some { data_compra := ⟨2026, 1, 5⟩, descricao := "Compra", valor := 100,
             parcelas := 2, parcela_atual := 1,
             vencimento_fatura := ⟨2026, 1, 10⟩, pago := true } ∧
    (c10state.marcar_fatura_paga 1 2026).cartao[1]? =
      some { data_compra := ⟨2026, 1, 5⟩, descricao := "Compra", valor := 100,
             parcelas := 2, parcela_atual := 2,
             vencimento_fatura := ⟨2026, 2, 10⟩, pago := false } :=
  ⟨(C10_marcar_fatura_frame c10state 1 2026).1,
   ((C10_marcar_fatura_frame c10state 1 2026).2.2.2.2.2 0 _ rfl).1 (by decide),
   ((C10_marcar_fatura_frame c10state 1 2026).2.2.2.2.2 1 _ rfl).2 (by decide)⟩

/-! ## C8 -/

/-- The budget ledger holds at most one row per category: all rows carry
pairwise distinct categories. -/
def atMostOnePerCategoria (l : List BudgetRow) : Prop :=
  l.Pairwise fun a b => a.categoria ≠ b.categoria

instance (l : List BudgetRow) : Decidable (atMostOnePerCategoria l) := by
  unfold atMostOnePerCategoria; infer_instance

/-- C8: `atualizar_orcamento` preserves the one-row-per-category invariant;
when the category is present it rewrites the matching row's limit in place,
keeping the row count and every row position, and when absent it appends
exactly one new row for the category. -/
theorem C8_budget_upsert (l : List BudgetRow) (c : String) (lim : ℚ)
    (hinv : atMostOnePerCategoria l) :
    atMostOnePerCategoria (atualizar_orcamento l c lim) ∧
    ((l.any fun r => r.categoria = c) = true →
      (atualizar_orcamento l c lim).length = l.length ∧
      ∀ (i : Nat) (r : BudgetRow), l[i]? = some r →
        (atualizar_orcamento l c lim)[i]? =
          some (if r.categoria = c then { r with limite_mensal := lim } else r)) ∧
    ((l.any fun r => r.categoria = c) = false →
      atualizar_orcamento l c lim =
        l ++ [{ categoria := c, limite_mensal := lim }]) := by
  have hcat : ∀ a : BudgetRow,
      (if a.categoria = c then { a with limite_mensal := lim } else a).categoria =
        a.categoria := by
    intro a
    split <;> rfl
  by_cases hany : (l.any fun r => r.categoria = c) = true
  · refine ⟨?_, ?_, ?_⟩
    · unfold atualizar_orcamento
      rw [if_pos hany]
      rw [atMostOnePerCategoria, List.pairwise_map]
      refine hinv.imp ?_
      intro a b hab
      rw [hcat a, hcat b]
      exact hab
    · intro _
      refine ⟨by simp [atualizar_orcamento, hany], ?_⟩
      intro i r hr
      simp [atualizar_orcamento, hany, List.getElem?_map, hr]
    · intro hfalse
      rw [hany] at hfalse
      cases hfalse
  · have hfalse : (l.any fun r => r.categoria = c) = false := by
      simpa using hany
    have hnotin : ∀ r ∈ l, r.categoria ≠ c := by
      intro r hr
      have := List.any_eq_false.mp hfalse r hr
      simpa using this
    refine ⟨?_, ?_, ?_⟩
    · unfold atualizar_orcamento
      rw [if_neg (by simp [hfalse])]
      rw [atMostOnePerCategoria, List.pairwise_append]
      refine ⟨hinv, List.pairwise_singleton _ _, ?_⟩
      intro a ha b hb
      simp only [List.mem_singleton] at hb
      subst hb
      exact hnotin a ha
    · intro htrue
      rw [hfalse] at htrue
      cases htrue
    · intro _
      unfold atualizar_orcamento
      rw [if_neg (by simp [hfalse])]

/-- The single-row default budget ledger used by C8's witness. -/
def c8budget : List BudgetRow :=
  [{ categoria := "Cartão de Crédito", limite_mensal := 1500 }]

/-- Witness for C8: updating the existing category keeps one row and rewrites
its limit; adding a fresh category appends one row. -/
theorem C8_budget_upsert_witness :
    (atMostOnePerCategoria c8budget ∧
      atMostOnePerCategoria (atualizar_orcamento c8budget "Cartão de Crédito" 2000) ∧
      (atualizar_orcamento c8budget "Cartão de Crédito" 2000).length =
        c8budget.length) ∧
    (atMostOnePerCategoria (atualizar_orcamento c8budget "Lazer" 400) ∧
      atualizar_orcamento c8budget "Lazer" 400 =
        c8budget ++ [{ categoria := "Lazer", limite_mensal := 400 }]) :=
  ⟨⟨by decide,
    (C8_budget_upsert c8budget "Cartão de Crédito" 2000 (by decide)).1,
    ((C8_budget_upsert c8budget "Cartão de Crédito" 2000 (by decide)).2.1
      (by decide)).1⟩,
   ⟨(C8_budget_upsert c8budget "Lazer" 400 (by decide)).1,
    (C8_budget_upsert c8budget "Lazer" 400 (by decide)).2.2 (by decide)⟩⟩
